import Mathlib

/-!
Shallow embedding of the AIEventPlanner repository's core
(`src/services/OpenAIService.ts`, `src/services/EventService.ts`,
`src/types/Event.ts`) and proofs about the claims of its design
specification.

Strings are modelled by Lean `String` / `List Char`; JavaScript
truthiness of the optional fields is made explicit (`undefined`,
`""`, `0` and `false` are falsy).  Calls to the external completion
endpoint are modelled by passing the call's outcome as an argument;
a thrown JavaScript exception is modelled by `Except.error` (or by
`Option.none` for expression-level TypeErrors).
-/

namespace AIEventPlanner

/-- Truthiness of a JavaScript string: the empty string is falsy. -/
def jsStrTruthy (s : String) : Bool := !s.isEmpty

/-- Truthiness of an optional string field: `undefined` and `""` are falsy. -/
def jsOptStrTruthy : Option String → Bool
  | none => false
  | some s => jsStrTruthy s

/-- Truthiness of an optional number field: `undefined` and `0` are falsy. -/
def jsOptNatTruthy : Option Nat → Bool
  | none => false
  | some n => n != 0

/-- Truthiness of an optional boolean field: `undefined` and `false` are falsy. -/
def jsOptBoolTruthy : Option Bool → Bool
  | none => false
  | some b => b

/-- JavaScript `x || dflt` on a string: returns `dflt` when `x` is falsy. -/
def jsOrStr (s dflt : String) : String := if jsStrTruthy s then s else dflt

/-- JavaScript `x || dflt` on an optional string. -/
def jsOrOptStr (s : Option String) (dflt : String) : String :=
  match s with
  | none => dflt
  | some v => jsOrStr v dflt

/-- Activity record from `src/types/Event.ts` (`id`, `name`, optional `description`). -/
structure Activity where
  id : String
  name : String
  description : Option String
deriving Repr, DecidableEq

/-- Question record from `src/types/Event.ts` (`id`, `question`). -/
structure Question where
  id : String
  question : String
deriving Repr, DecidableEq

/-- The `CreateEventData` interface from `src/types/Event.ts`.  `name` and
`description` are required strings; all other fields are optional
(`Option`, with `none` standing for `undefined`). -/
structure CreateEventData where
  name : String
  description : String
  numberOfPeople : Option Nat
  location : Option String
  goal : Option String
  activities : Option (List Activity)
  selectedDates : Option (List String)
  startTime : Option String
  endTime : Option String
  isRecurring : Option Bool
  recurringFrequency : Option String
  aiQuestions : Option (List Question)
deriving Repr, DecidableEq

/-- The persisted `Event` interface from `src/types/Event.ts`.  `createdAt`
and `updatedAt` are modelled as abstract clock readings (`Nat`). -/
structure Event where
  id : String
  name : String
  description : String
  numberOfPeople : Option Nat
  location : Option String
  goal : Option String
  activities : Option (List Activity)
  selectedDates : Option (List String)
  startTime : Option String
  endTime : Option String
  isRecurring : Option Bool
  recurringFrequency : Option String
  aiQuestions : Option (List Question)
  aiGeneratedPlan : Option String
  createdAt : Nat
  updatedAt : Nat
deriving Repr, DecidableEq

/-! ## Prompt Builder (`OpenAIService.buildEventInput`, lines 260-295)

Each per-line interpolated value of the user-input block gets its own
definition so that theorems can speak about individual lines.  The
template `${x || "Not specified"}` tests JS truthiness of `x`. -/

/-- Value interpolated on the Title line: `eventData.name || "Not specified"`. -/
def titleValue (d : CreateEventData) : String := jsOrStr d.name "Not specified"

/-- Value interpolated on the Description line. -/
def descriptionValue (d : CreateEventData) : String := jsOrStr d.description "Not specified"

/-- Value interpolated on the Attendees line:
`${eventData.numberOfPeople || "Not specified"}` — a count of `0` is falsy. -/
def attendeesValue (d : CreateEventData) : String :=
  match d.numberOfPeople with
  | none => "Not specified"
  | some n => if n != 0 then toString n else "Not specified"

/-- Value interpolated on the Location line. -/
def locationValue (d : CreateEventData) : String := jsOrOptStr d.location "Not specified"

/-- Value interpolated on the Purpose line (`eventData.goal`). -/
def purposeValue (d : CreateEventData) : String := jsOrOptStr d.goal "Not specified"

/-- Value interpolated on the Date line:
`selectedDates && selectedDates.length > 0 ? selectedDates.join(", ") : "Not specified"`. -/
def dateValue (d : CreateEventData) : String :=
  match d.selectedDates with
  | none => "Not specified"
  | some ds => if ds.length > 0 then String.intercalate ", " ds else "Not specified"

/-- Value interpolated on the Start Time line. -/
def startTimeValue (d : CreateEventData) : String := jsOrOptStr d.startTime "Not specified"

/-- Value interpolated on the End Time line. -/
def endTimeValue (d : CreateEventData) : String := jsOrOptStr d.endTime "Not specified"

/-- Value interpolated on the Recurring line:
`isRecurring ? ` Yes (frequency or fallback) ` : "No"`. -/
def recurringValue (d : CreateEventData) : String :=
  if jsOptBoolTruthy d.isRecurring then
    "Yes (" ++ jsOrOptStr d.recurringFrequency "frequency not specified" ++ ")"
  else "No"

/-- Rendering of one activity: `a.name` followed, when `a.description` is
truthy, by a parenthesised description. -/
def activityText (a : Activity) : String :=
  a.name ++ (match a.description with
             | none => ""
             | some desc => if jsStrTruthy desc then " (" ++ desc ++ ")" else "")

/-- Value interpolated on the Activities line. -/
def activitiesValue (d : CreateEventData) : String :=
  match d.activities with
  | none => "Not specified"
  | some l =>
      if l.length > 0 then String.intercalate ", " (l.map activityText)
      else "Not specified"

/-- Value interpolated on the Questions for AI line (semicolon-joined). -/
def questionsValue (d : CreateEventData) : String :=
  match d.aiQuestions with
  | none => "Not specified"
  | some l =>
      if l.length > 0 then String.intercalate "; " (l.map Question.question)
      else "Not specified"

/-- The `OpenAIService.getNotSpecifiedFields` array of pushed labels
(lines 297-313 of the source): each `if (!field)` test is the negated JS
truthiness of the same field expression the rendering templates test. -/
def notSpecifiedList (d : CreateEventData) : List String :=
  (if !jsStrTruthy d.name then ["Title"] else [])
  ++ (if !jsStrTruthy d.description then ["Description"] else [])
  ++ (if !jsOptNatTruthy d.numberOfPeople then ["Attendees"] else [])
  ++ (if !jsOptStrTruthy d.location then ["Location"] else [])
  ++ (if !jsOptStrTruthy d.goal then ["Purpose"] else [])
  ++ (if (match d.selectedDates with
          | none => true
          | some ds => ds.length == 0) then ["Date"] else [])
  ++ (if !jsOptStrTruthy d.startTime then ["Start Time"] else [])
  ++ (if !jsOptStrTruthy d.endTime then ["End Time"] else [])
  ++ (if (match d.activities with
          | none => true
          | some l => l.length == 0) then ["Activities"] else [])
  ++ (if (match d.aiQuestions with
          | none => true
          | some l => l.length == 0) then ["Questions for AI"] else [])

/-- The `OpenAIService.getNotSpecifiedFields` return value (line 314):
comma-joined labels, or `"None"` when the array is empty. -/
def getNotSpecifiedFields (d : CreateEventData) : String :=
  if (notSpecifiedList d).length > 0 then String.intercalate ", " (notSpecifiedList d)
  else "None"

/-- Title line of the user-input block. -/
def titleLine (d : CreateEventData) : String := "- **Title:** " ++ titleValue d

/-- Description line of the user-input block. -/
def descriptionLine (d : CreateEventData) : String := "- **Description:** " ++ descriptionValue d

/-- Attendees line of the user-input block. -/
def attendeesLine (d : CreateEventData) : String := "- **Attendees:** " ++ attendeesValue d

/-- Location line of the user-input block. -/
def locationLine (d : CreateEventData) : String := "- **Location:** " ++ locationValue d

/-- Purpose line of the user-input block. -/
def purposeLine (d : CreateEventData) : String := "- **Purpose:** " ++ purposeValue d

/-- Date line of the user-input block. -/
def dateLine (d : CreateEventData) : String := "- **Date:** " ++ dateValue d

/-- Start Time line of the user-input block. -/
def startTimeLine (d : CreateEventData) : String := "- **Start Time:** " ++ startTimeValue d

/-- End Time line of the user-input block. -/
def endTimeLine (d : CreateEventData) : String := "- **End Time:** " ++ endTimeValue d

/-- Recurring line of the user-input block. -/
def recurringLine (d : CreateEventData) : String := "- **Recurring:** " ++ recurringValue d

/-- Activities line of the user-input block. -/
def activitiesLine (d : CreateEventData) : String := "- **Activities:** " ++ activitiesValue d

/-- Questions for AI line of the user-input block. -/
def questionsLine (d : CreateEventData) : String := "- **Questions for AI:** " ++ questionsValue d

/-- Final summary line of the user-input block. -/
def summaryLine (d : CreateEventData) : String :=
  "- **Not specified fields:** " ++ getNotSpecifiedFields d

/-- `OpenAIService.buildEventInput` (lines 260-295): the twelve lines of
the user-input block joined with newlines, in source order. -/
def buildEventInput (d : CreateEventData) : String :=
  String.intercalate "\n"
    [ titleLine d, descriptionLine d, attendeesLine d, locationLine d,
      purposeLine d, dateLine d, startTimeLine d, endTimeLine d,
      recurringLine d, activitiesLine d, questionsLine d, summaryLine d ]

/-! ## Prompt payload (`OpenAIService.generateEventPlan`, lines 80-126) -/

/-- One role-tagged message block of the completion request. -/
structure ChatMessage where
  role : String
  content : String
deriving Repr, DecidableEq

/-- The fixed system block content (source lines 88-94, a five-element
array joined with newlines; `‑` and `—` reproduce the
non-breaking hyphen and em dash of the source text). -/
def planSystemContent : String :=
  String.intercalate "\n"
    [ "You are an expert event planner and host-coach.",
      "You produce highly structured, practical, and engaging plans.",
      "Always respect any user‑provided details and only build on them—never overwrite.",
      "If a field is missing or marked \"Not specified,\" offer a thoughtful recommendation aligned with the event's theme.",
      "If the user has provided specific questions in 'Questions for AI', address these questions throughout your plan and include specific answers in the recommendations section." ]

/-- The fixed output-requirements block content (source lines 102-123). -/
def planOutputRequirements : String :=
  String.intercalate "\n"
    [ "### Output Requirements",
      "Please return a JSON object matching this schema:",
      "```json",
      "\x7b",
      "  \"overview\": \"string\",",
      "  \"timeline\": [",
      "    \x7b\"time\": \"H:MM AM/PM\", \"activity\": \"string\"\x7d",
      "  ],",
      "  \"schedule\": [",
      "    \x7b\"activity\": \"string\", \"details\": \"string\", \"location\": \"string\"\x7d",
      "  ],",
      "  \"logistics\": [\"string\"],",
      "  \"materials\": [\"string\"],",
      "  \"recommendations\": [\"string\"],",
      "  \"tips\": [\"string\"]",
      "\x7d",
      "```",
      "IMPORTANT: Use 12-hour time format with AM/PM for all times (e.g., '9:00 AM', '2:30 PM', '11:45 PM').",
      "FORMAT: When converted to text, the Activity Schedule section should be formatted as a bulleted list instead of subheaders.",
      "Make the plan practical, engaging, and tailored to the provided details." ]

/-- The `messages` array of the plan-generation completion request
(source lines 85-125): system block, user-input block, output-requirements
block, in that order. -/
def planRequestMessages (d : CreateEventData) : List ChatMessage :=
  [ { role := "system", content := planSystemContent },
    { role := "user",
      content := String.intercalate "\n" ["### Event Input", buildEventInput d] },
    { role := "user", content := planOutputRequirements } ]

/-! ## JSON values and `JSON.parse`

`JSON.parse` is the JavaScript built-in used by the Response Normalizer.
It is modelled by a fuel-based recursive-descent parser over `List Char`
following the ECMA JSON grammar: values are objects, arrays, strings
(with the standard escape sequences), numbers (kept as their source
lexeme — no floating-point semantics are needed by any claim), `true`,
`false` and `null`; insignificant whitespace is space, tab, newline and
carriage return.  A thrown `SyntaxError` is modelled by `none`. -/

inductive Json where
  | null
  | bool (b : Bool)
  | num (lexeme : String)
  | str (s : String)
  | arr (elems : List Json)
  | obj (fields : List (String × Json))
deriving Repr

/-- Opening curly brace character. -/
def lbraceChar : Char := Char.ofNat 123

/-- Closing curly brace character. -/
def rbraceChar : Char := Char.ofNat 125

/-- Backtick character. -/
def backtickChar : Char := Char.ofNat 96

/-- Left typographic double quotation mark (U+201C). -/
def smartDQ1 : Char := Char.ofNat 0x201C

/-- Right typographic double quotation mark (U+201D). -/
def smartDQ2 : Char := Char.ofNat 0x201D

/-- Left typographic single quotation mark (U+2018). -/
def smartSQ1 : Char := Char.ofNat 0x2018

/-- Right typographic single quotation mark (U+2019). -/
def smartSQ2 : Char := Char.ofNat 0x2019

/-- Insignificant whitespace of the JSON grammar. -/
def isJsonWs (c : Char) : Bool := c = ' ' || c = '\t' || c = '\n' || c = '\r'

/-- Drop leading JSON whitespace. -/
def skipJsonWs (l : List Char) : List Char := l.dropWhile isJsonWs

/-- Value of one hexadecimal digit. -/
def hexVal? (c : Char) : Option Nat :=
  if '0' ≤ c ∧ c ≤ '9' then some (c.toNat - '0'.toNat)
  else if 'a' ≤ c ∧ c ≤ 'f' then some (c.toNat - 'a'.toNat + 10)
  else if 'A' ≤ c ∧ c ≤ 'F' then some (c.toNat - 'A'.toNat + 10)
  else none

/-- Parse the body of a JSON string after the opening quote, handling the
escape sequences of the JSON grammar; returns the decoded characters and
the input following the closing quote. -/
def parseStrChars : Nat → List Char → Option (List Char × List Char)
  | 0, _ => none
  | _, [] => none
  | fuel+1, c :: rest =>
    if c = '"' then some ([], rest)
    else if c = '\\' then
      match rest with
      | [] => none
      | e :: rest2 =>
        if e = '"' ∨ e = '\\' ∨ e = '/' then
          (fun p => (e :: p.1, p.2)) <$> parseStrChars fuel rest2
        else if e = 'b' then (fun p => (Char.ofNat 8 :: p.1, p.2)) <$> parseStrChars fuel rest2
        else if e = 'f' then (fun p => (Char.ofNat 12 :: p.1, p.2)) <$> parseStrChars fuel rest2
        else if e = 'n' then (fun p => ('\n' :: p.1, p.2)) <$> parseStrChars fuel rest2
        else if e = 'r' then (fun p => ('\r' :: p.1, p.2)) <$> parseStrChars fuel rest2
        else if e = 't' then (fun p => ('\t' :: p.1, p.2)) <$> parseStrChars fuel rest2
        else if e = 'u' then
          match rest2 with
          | h1 :: h2 :: h3 :: h4 :: rest3 =>
            match hexVal? h1, hexVal? h2, hexVal? h3, hexVal? h4 with
            | some a, some b, some cc, some dd =>
              (fun p => (Char.ofNat (((a * 16 + b) * 16 + cc) * 16 + dd) :: p.1, p.2)) <$>
                parseStrChars fuel rest3
            | _, _, _, _ => none
          | _ => none
        else none
    else if c.toNat < 0x20 then none
    else (fun p => (c :: p.1, p.2)) <$> parseStrChars fuel rest

/-- Parse the optional fraction and exponent of a JSON number,
returning their characters together with the remaining input. -/
def numFracExp (l : List Char) : Option (List Char × List Char) :=
  let step1 : Option (List Char × List Char) :=
    match l with
    | '.' :: r =>
        let ds := r.takeWhile Char.isDigit
        let r2 := r.dropWhile Char.isDigit
        if ds.isEmpty then none else some ('.' :: ds, r2)
    | _ => some ([], l)
  match step1 with
  | none => none
  | some (fracPart, l2) =>
    match l2 with
    | c :: r =>
      if c = 'e' ∨ c = 'E' then
        let spl : List Char × List Char :=
          match r with
          | s :: r' => if s = '+' ∨ s = '-' then ([s], r') else ([], r)
          | [] => ([], r)
        let ds := spl.2.takeWhile Char.isDigit
        let r2 := spl.2.dropWhile Char.isDigit
        if ds.isEmpty then none else some (fracPart ++ c :: (spl.1 ++ ds), r2)
      else some (fracPart, l2)
    | [] => some (fracPart, l2)

/-- Lex a JSON number (sign, integer part with no leading zeros, optional
fraction and exponent), returning its lexeme. -/
def parseNumberLex (l : List Char) : Option (List Char × List Char) :=
  let spl : List Char × List Char :=
    match l with
    | c :: r => if c = '-' then ([c], r) else ([], l)
    | [] => ([], l)
  match spl.2 with
  | [] => none
  | c :: r =>
    if c = '0' then
      match numFracExp r with
      | some (tail, r2) => some (spl.1 ++ '0' :: tail, r2)
      | none => none
    else if c.isDigit then
      let ds := r.takeWhile Char.isDigit
      let r2 := r.dropWhile Char.isDigit
      match numFracExp r2 with
      | some (tail, r3) => some (spl.1 ++ c :: (ds ++ tail), r3)
      | none => none
    else none

/-- Match a literal keyword tail. -/
def matchLit (lit l : List Char) : Option (List Char) :=
  if l.take lit.length = lit then some (l.drop lit.length) else none

mutual

/-- Parse one JSON value (after skipping leading whitespace). -/
def parseVal : Nat → List Char → Option (Json × List Char)
  | 0, _ => none
  | fuel+1, l =>
    match skipJsonWs l with
    | [] => none
    | c :: rest =>
      if c = '"' then
        match parseStrChars (rest.length + 1) rest with
        | some (cs, r) => some (Json.str (String.mk cs), r)
        | none => none
      else if c = 't' then
        match matchLit ['r', 'u', 'e'] rest with
        | some r => some (Json.bool true, r)
        | none => none
      else if c = 'f' then
        match matchLit ['a', 'l', 's', 'e'] rest with
        | some r => some (Json.bool false, r)
        | none => none
      else if c = 'n' then
        match matchLit ['u', 'l', 'l'] rest with
        | some r => some (Json.null, r)
        | none => none
      else if c = '[' then
        match skipJsonWs rest with
        | ']' :: r => some (Json.arr [], r)
        | l2 =>
          match parseArrItems fuel l2 with
          | some (vs, r) => some (Json.arr vs, r)
          | none => none
      else if c = lbraceChar then
        match skipJsonWs rest with
        | [] => none
        | c2 :: r =>
          if c2 = rbraceChar then some (Json.obj [], r)
          else
            match parseObjItems fuel (c2 :: r) with
            | some (fs, r2) => some (Json.obj fs, r2)
            | none => none
      else
        match parseNumberLex (c :: rest) with
        | some (lex, r) => some (Json.num (String.mk lex), r)
        | none => none

/-- Parse the comma-separated items of a non-empty JSON array, up to and
including the closing bracket. -/
def parseArrItems : Nat → List Char → Option (List Json × List Char)
  | 0, _ => none
  | fuel+1, l =>
    match parseVal fuel l with
    | none => none
    | some (v, r) =>
      match skipJsonWs r with
      | ',' :: r2 =>
        match parseArrItems fuel r2 with
        | some (vs, r3) => some (v :: vs, r3)
        | none => none
      | ']' :: r2 => some ([v], r2)
      | _ => none

/-- Parse the members of a non-empty JSON object, up to and including the
closing brace. -/
def parseObjItems : Nat → List Char → Option (List (String × Json) × List Char)
  | 0, _ => none
  | fuel+1, l =>
    match skipJsonWs l with
    | '"' :: rest =>
      match parseStrChars (rest.length + 1) rest with
      | none => none
      | some (key, r) =>
        match skipJsonWs r with
        | ':' :: r2 =>
          match parseVal fuel r2 with
          | none => none
          | some (v, r3) =>
            match skipJsonWs r3 with
            | ',' :: r4 =>
              match parseObjItems fuel r4 with
              | some (fs, r5) => some ((String.mk key, v) :: fs, r5)
              | none => none
            | c :: r4 => if c = rbraceChar then some ([(String.mk key, v)], r4) else none
            | [] => none
        | _ => none
    | _ => none

end

/-- Model of `JSON.parse`: parse one value and require only trailing
whitespace after it; `none` models a thrown `SyntaxError`.  The fuel
`2 * length + 8` dominates the recursion depth of any accepting run. -/
def jsonParse (s : String) : Option Json :=
  match parseVal (2 * s.data.length + 8) s.data with
  | some (v, rest) => if (skipJsonWs rest).isEmpty then some v else none
  | none => none

/-! ## Response cleanup cascade (`generateEventPlan`, lines 149-218) -/

/-- Whitespace class of the JavaScript regular-expression `\s`
(the code points relevant to this code base). -/
def isJsRegexWs (c : Char) : Bool :=
  c = ' ' || c = '\t' || c = '\n' || c = '\r' || c = Char.ofNat 11 ||
  c = Char.ofNat 12 || c = Char.ofNat 0xA0

/-- Interior processing of a fenced block: the regular expression
 drops an optional `json` tag, the greedy run of whitespace
after it, and one trailing newline before the closing fence. -/
def processFencedInner (inner : String) : String :=
  let l := inner.data
  let l := if l.take 4 = ['j', 's', 'o', 'n'] then l.drop 4 else l
  let l := l.dropWhile isJsRegexWs
  let l :=
    match l.reverse with
    | '\n' :: r => r.reverse
    | _ => l
  String.mk l

/-- Split the input at the first run of three consecutive backticks,
returning the characters before the fence and those after it. -/
def splitAtFence : Nat → List Char → Option (List Char × List Char)
  | 0, _ => none
  | _, [] => none
  | fuel+1, c :: rest =>
    if c = backtickChar then
      match rest with
      | c2 :: c3 :: r =>
        if c2 = backtickChar ∧ c3 = backtickChar then some ([], r)
        else (fun p => (c :: p.1, p.2)) <$> splitAtFence fuel rest
      | _ => (fun p => (c :: p.1, p.2)) <$> splitAtFence fuel rest
    else (fun p => (c :: p.1, p.2)) <$> splitAtFence fuel rest

/-- Strategy 1 (lines 154-161): extract the contents of the first
triple-backtick fenced block when one exists, modelling the match of
the fenced-block regular expression (an opening fence and a later
closing fence are both required). -/
def extractFenced (s : String) : Option String :=
  match splitAtFence (s.data.length + 1) s.data with
  | none => none
  | some (_, rest1) =>
    match splitAtFence (rest1.length + 1) rest1 with
    | none => none
    | some (inner, _) => some (processFencedInner (String.mk inner))

/-- Strategy 2 (lines 163-169): truncate to the span from the first
opening brace to the last closing brace when both exist in that order. -/
def boundaryExtract (s : String) : String :=
  let l := s.data
  match l.findIdx? (· = lbraceChar), (l.reverse.findIdx? (· = rbraceChar)).map
      (fun k => l.length - 1 - k) with
  | some i, some j => if j > i then String.mk ((l.drop i).take (j - i + 1)) else s
  | _, _ => s

/-- Removal of every backtick, modelling the successive
`replace(triple backtick, empty)` and `replace(backtick, empty)` global
substitutions (lines 173-174), whose combined effect deletes each
backtick character. -/
def stripBackticks (l : List Char) : List Char := l.filter (fun c => c ≠ backtickChar)

/-- One pass of the global substitution removing a comma followed by
whitespace and a closing brace or bracket (line 175), scanning left to
right with non-overlapping matches. -/
def removeTrailingCommasAux : Nat → List Char → List Char
  | 0, l => l
  | _, [] => []
  | fuel+1, c :: rest =>
    if c = ',' then
      let r2 := rest.dropWhile isJsRegexWs
      match r2 with
      | b :: r3 =>
        if b = rbraceChar ∨ b = ']' then b :: removeTrailingCommasAux fuel r3
        else c :: removeTrailingCommasAux fuel rest
      | [] => c :: rest
    else c :: removeTrailingCommasAux fuel rest

/-- Trailing-comma removal with sufficient fuel. -/
def removeTrailingCommas (l : List Char) : List Char :=
  removeTrailingCommasAux l.length l

/-- Index of the last newline of a whitespace run, if any. -/
def lastNewlinePos (ws : List Char) : Option Nat :=
  (ws.reverse.findIdx? (· = '\n')).map (fun k => ws.length - 1 - k)

/-- One pass of the global substitution collapsing a newline, greedy
whitespace and a newline into a single newline (line 176); the greedy
match extends to the last newline of the following whitespace run and
scanning resumes after the replacement. -/
def collapseBlankAux : Nat → List Char → List Char
  | 0, l => l
  | _, [] => []
  | fuel+1, c :: rest =>
    if c = '\n' then
      let ws := rest.takeWhile isJsRegexWs
      match lastNewlinePos ws with
      | some j => '\n' :: collapseBlankAux fuel (rest.drop (j + 1))
      | none => c :: collapseBlankAux fuel rest
    else c :: collapseBlankAux fuel rest

/-- Blank-line collapse with sufficient fuel. -/
def collapseBlank (l : List Char) : List Char := collapseBlankAux l.length l

/-- Leading/trailing whitespace removal (line 177). -/
def trimEnds (l : List Char) : List Char :=
  ((l.dropWhile isJsRegexWs).reverse.dropWhile isJsRegexWs).reverse

/-- Typographic double-quote replacement (line 178). -/
def fixSmartDoubles (l : List Char) : List Char :=
  l.map (fun c => if c = smartDQ1 ∨ c = smartDQ2 then '"' else c)

/-- Typographic single-quote replacement (line 179). -/
def fixSmartSingles (l : List Char) : List Char :=
  l.map (fun c => if c = smartSQ1 ∨ c = smartSQ2 then '\'' else c)

/-- The complete cleanup applied to `cleanedContent` before the second
parse attempt: fenced-block extraction, brace-boundary extraction, then
the character-level substitution chain in source order. -/
def cleanResponse (s : String) : String :=
  let s1 := match extractFenced s with | some inner => inner | none => s
  let s2 := boundaryExtract s1
  String.mk (fixSmartSingles (fixSmartDoubles (trimEnds (collapseBlank
    (removeTrailingCommas (stripBackticks s2.data))))))

/-- The fixed fallback object returned when every parse strategy fails
(lines 239-248). -/
def fallbackPlanJson : Json :=
  Json.obj
    [ ("overview", Json.str "Unable to parse AI response. Please regenerate the plan."),
      ("timeline", Json.arr []),
      ("schedule", Json.arr []),
      ("logistics", Json.arr [Json.str "Error occurred during plan generation"]),
      ("materials", Json.arr []),
      ("recommendations", Json.arr [Json.str "Please try regenerating the AI plan"]),
      ("tips", Json.arr []) ]

/-- The parse-recovery cascade of `generateEventPlan` (lines 134-250):
direct parse, else parse of the cleaned text, else the fallback object.
Each JavaScript `try`/`catch` around `JSON.parse` appears here as the
`none` branch of the parse result. -/
def normalizeResponse (generatedContent : String) : Json :=
  match jsonParse generatedContent with
  | some v => v
  | none =>
    match jsonParse (cleanResponse generatedContent) with
    | some v => v
    | none => fallbackPlanJson

/-- Outcome of `generateEventPlan` as a function of the completion's
content (lines 128-250): missing or empty content throws (the inner
`Error` is re-wrapped by the outer catch); any other content is
normalized and returned without error. -/
def generateEventPlanResult (content : Option String) : Except String Json :=
  match content with
  | none => Except.error "Failed to generate event plan: Failed to generate event plan"
  | some s =>
      if s = "" then
        Except.error "Failed to generate event plan: Failed to generate event plan"
      else Except.ok (normalizeResponse s)

/-! ## Flattening (`OpenAIService.generateEventPlanString`, lines 318-374)

The source flattens the value returned by `generateEventPlan`.  That
value is produced by `JSON.parse` and only cast — never validated — so
it may lack fields of the annotated shape.  `flattenJs` embeds the
flattening over raw `Json` values with JavaScript evaluation semantics:
property access on `null` throws, `.length` of `undefined`/`null`
throws, `forEach` of a non-array throws, and interpolation of
`undefined` renders the text `undefined`.  A thrown `TypeError` is
modelled by `none`. -/

/-- Lookup of an object member; with duplicate keys `JSON.parse` keeps
the last occurrence. -/
def jsObjGet (fields : List (String × Json)) (k : String) : Option Json :=
  fields.foldl (fun acc f => if f.1 = k then some f.2 else acc) none

/-- JavaScript property access `v.k`: throws on `null` (outer `none`),
is `undefined` (inner `none`) on primitives and arrays, and looks the
member up on objects. -/
def jsProp : Json → String → Option (Option Json)
  | Json.null, _ => none
  | Json.obj fields, k => some (jsObjGet fields k)
  | _, _ => some none

mutual

/-- String conversion of a defined JavaScript value inside a template
literal (arrays join their elements with commas, objects render as
`[object Object]`). -/
def jsDisplay : Json → String
  | Json.null => "null"
  | Json.bool b => if b then "true" else "false"
  | Json.num lex => lex
  | Json.str s => s
  | Json.arr l => jsDisplayList l
  | Json.obj _ => "[object Object]"

/-- Comma-joined element rendering of `Array.prototype.toString`
(`null` elements render as the empty string). -/
def jsDisplayList : List Json → String
  | [] => ""
  | [Json.null] => ""
  | [x] => jsDisplay x
  | Json.null :: xs => "," ++ jsDisplayList xs
  | x :: xs => jsDisplay x ++ "," ++ jsDisplayList xs

end

/-- Template-literal rendering of a possibly-`undefined` value. -/
def jsDisplayOpt : Option Json → String
  | none => "undefined"
  | some v => jsDisplay v

/-- Evaluation of `x.length > 0` for a possibly-`undefined` field value:
throws (`none`) on `undefined` and `null`; counts array elements and
string length; is false on numbers and booleans (`undefined > 0`); a
plain object has no own `length` unless decoded with such a member, in
which case the loop the guard protects throws anyway. -/
def jsLengthGt0 : Option Json → Option Bool
  | none => none
  | some Json.null => none
  | some (Json.arr l) => some (decide (l.length > 0))
  | some (Json.str s) => some (decide (s.length > 0))
  | some (Json.num _) => some false
  | some (Json.bool _) => some false
  | some (Json.obj fields) =>
      match jsObjGet fields "length" with
      | none => some false
      | some _ => none

/-- Rendering of one timeline entry (line 329); accessing `.time` or
`.activity` on a `null` entry throws. -/
def renderTimelineItem (item : Json) : Option String :=
  match jsProp item "time", jsProp item "activity" with
  | some t, some a => some ("- **" ++ jsDisplayOpt t ++ ":** " ++ jsDisplayOpt a ++ "\n")
  | _, _ => none

/-- Rendering of one schedule entry (line 337). -/
def renderScheduleItem (item : Json) : Option String :=
  match jsProp item "activity", jsProp item "details", jsProp item "location" with
  | some a, some d, some loc =>
      some ("- **" ++ jsDisplayOpt a ++ "** - " ++ jsDisplayOpt d ++
            " (Location: " ++ jsDisplayOpt loc ++ ")\n")
  | _, _, _ => none

/-- Rendering of one plain bulleted entry (lines 345, 353, 361, 369). -/
def renderBulletItem (item : Json) : Option String :=
  some ("- " ++ jsDisplay item ++ "\n")

/-- Append the renderings of a `forEach` loop to the accumulator. -/
def appendItems (render : Json → Option String) : List Json → String → Option String
  | [], acc => some acc
  | x :: xs, acc =>
    match render x with
    | none => none
    | some s => appendItems render xs (acc ++ s)

/-- One guarded section of the flattening: evaluate the `length > 0`
guard, skip the section when it is false, otherwise run `forEach` —
which throws when the field is not an array — and append a blank line
after the section when `addGap` is set (every section but tips). -/
def sectionJs (plan : Json) (key header : String) (render : Json → Option String)
    (addGap : Bool) (acc : String) : Option String :=
  match jsProp plan key with
  | none => none
  | some fieldOpt =>
    match jsLengthGt0 fieldOpt with
    | none => none
    | some false => some acc
    | some true =>
      match fieldOpt with
      | some (Json.arr l) =>
          match appendItems render l (acc ++ header) with
          | none => none
          | some s => some (if addGap then s ++ "\n" else s)
      | _ => none

/-- `generateEventPlanString`'s flattening applied to the raw decoded
value (lines 324-373), with JavaScript evaluation semantics; `none`
models a thrown `TypeError`. -/
def flattenJs (plan : Json) : Option String := do
  let ovOpt ← jsProp plan "overview"
  let s0 := "## Event Overview\n" ++ jsDisplayOpt ovOpt ++ "\n\n"
  let s1 ← sectionJs plan "timeline" "## Timeline\n" renderTimelineItem true s0
  let s2 ← sectionJs plan "schedule" "## Activity Schedule\n" renderScheduleItem true s1
  let s3 ← sectionJs plan "logistics" "## Logistics\n" renderBulletItem true s2
  let s4 ← sectionJs plan "materials" "## Materials Needed\n" renderBulletItem true s3
  let s5 ← sectionJs plan "recommendations" "## Recommendations\n" renderBulletItem true s4
  sectionJs plan "tips" "## Tips for Success\n" renderBulletItem false s5

/-! ## Typed flattening

On a response that actually matches the annotated `EventPlanResponse`
shape (`src/types/Event.ts`, lines 54-69), the same flattening is a
total function; this is the embedding used for the plan-flattening
claims. -/

/-- One timeline entry of `EventPlanResponse`. -/
structure TimelineItem where
  time : String
  activity : String
deriving Repr, DecidableEq

/-- One schedule entry of `EventPlanResponse`. -/
structure ScheduleItem where
  activity : String
  details : String
  location : String
deriving Repr, DecidableEq

/-- The `EventPlanResponse` interface: the canonical StructuredPlan. -/
structure EventPlanResponse where
  overview : String
  timeline : List TimelineItem
  schedule : List ScheduleItem
  logistics : List String
  materials : List String
  recommendations : List String
  tips : List String
deriving Repr, DecidableEq

/-- `OpenAIService.generateEventPlanString` (lines 318-374) on a
well-typed plan: sequential string accumulation, one guarded section per
collection field, each `forEach` a left fold of appends. -/
def generateEventPlanString (p : EventPlanResponse) : String :=
  let s := "## Event Overview\n" ++ p.overview ++ "\n\n"
  let s :=
    if p.timeline.length > 0 then
      (p.timeline.foldl
        (fun acc item => acc ++ ("- **" ++ item.time ++ ":** " ++ item.activity ++ "\n"))
        (s ++ "## Timeline\n")) ++ "\n"
    else s
  let s :=
    if p.schedule.length > 0 then
      (p.schedule.foldl
        (fun acc item => acc ++ ("- **" ++ item.activity ++ "** - " ++ item.details ++
          " (Location: " ++ item.location ++ ")\n"))
        (s ++ "## Activity Schedule\n")) ++ "\n"
    else s
  let s :=
    if p.logistics.length > 0 then
      (p.logistics.foldl (fun acc item => acc ++ ("- " ++ item ++ "\n"))
        (s ++ "## Logistics\n")) ++ "\n"
    else s
  let s :=
    if p.materials.length > 0 then
      (p.materials.foldl (fun acc item => acc ++ ("- " ++ item ++ "\n"))
        (s ++ "## Materials Needed\n")) ++ "\n"
    else s
  let s :=
    if p.recommendations.length > 0 then
      (p.recommendations.foldl (fun acc item => acc ++ ("- " ++ item ++ "\n"))
        (s ++ "## Recommendations\n")) ++ "\n"
    else s
  let s :=
    if p.tips.length > 0 then
      p.tips.foldl (fun acc item => acc ++ ("- " ++ item ++ "\n"))
        (s ++ "## Tips for Success\n")
    else s
  s

/-! ## Plan enhancement (`OpenAIService.enhanceExistingPlan`, lines 376-423) -/

/-- The prompt built by `enhanceExistingPlan` (lines 383-390), embedding
the event's flattened plan string (or a placeholder when the plan field
is falsy) and the user's free-text request. -/
def enhancePrompt (event : Event) (userRequest : String) : String :=
  "Here is an existing event plan:\n\nEvent: " ++ event.name ++ "\nCurrent Plan: " ++
  jsOrOptStr event.aiGeneratedPlan "No existing plan" ++
  "\n\nUser Request: " ++ userRequest ++
  "\n\nPlease provide an enhanced or modified version of this event plan based on the user's request. Keep the good parts of the existing plan and improve upon them."

/-- The `messages` array of the enhancement request (lines 394-404). -/
def enhanceRequestMessages (event : Event) (userRequest : String) : List ChatMessage :=
  [ { role := "system",
      content := "You are an expert event planner helping to enhance and improve existing event plans based on user feedback and requests." },
    { role := "user", content := enhancePrompt event userRequest } ]

/-- Outcome of `enhanceExistingPlan` as a function of the completion's
content (lines 409-422): a falsy response (`undefined`, `null` or the
empty string) throws — the inner `Error` re-wrapped by the outer catch —
and any other response is returned unmodified. -/
def enhanceExistingPlan (content : Option String) : Except String String :=
  match content with
  | none => Except.error "Failed to enhance event plan: Failed to enhance event plan"
  | some s =>
      if s = "" then
        Except.error "Failed to enhance event plan: Failed to enhance event plan"
      else Except.ok s

/-! ## Activity suggestions (`OpenAIService.generateActivitySuggestions`,
lines 425-476) -/

/-- The free-text suggestion prompt (lines 433-443); the attendee-count
and location clauses are appended only when the arguments are truthy. -/
def suggestionPrompt (eventType : String) (numberOfPeople : Option Nat)
    (location : Option String) : String :=
  "Suggest 5-10 creative and engaging activities for a " ++ eventType ++
  (match numberOfPeople with
   | some n => if n != 0 then " with " ++ toString n ++ " people" else ""
   | none => "") ++
  (match location with
   | some loc => if jsStrTruthy loc then " at " ++ loc else ""
   | none => "") ++
  ". Provide just the activity names, one per line."

/-- Split on a separator character, keeping empty segments, as
`String.prototype.split` does. -/
def splitOnCharAux (sep : Char) : Nat → List Char → List Char → List (List Char)
  | 0, acc, _ => [acc.reverse]
  | _, acc, [] => [acc.reverse]
  | fuel+1, acc, c :: rest =>
    if c = sep then acc.reverse :: splitOnCharAux sep fuel [] rest
    else splitOnCharAux sep fuel (c :: acc) rest

/-- JavaScript `s.split("\n")`. -/
def jsSplitNewline (s : String) : List String :=
  (splitOnCharAux '\n' (s.data.length + 1) [] s.data).map String.mk

/-- JavaScript `String.prototype.trim`. -/
def jsTrim (s : String) : String := String.mk (trimEnds s.data)

/-- Outcome of `generateActivitySuggestions` as a function of the
completion call's outcome (lines 445-475): a thrown call or a falsy
response yields the empty list; otherwise the response is split into
lines, the blank lines are dropped, and each kept line is trimmed. -/
def generateActivitySuggestions (callResult : Except String (Option String)) : List String :=
  match callResult with
  | Except.error _ => []
  | Except.ok content =>
    match content with
    | none => []
    | some s =>
        if s = "" then []
        else ((jsSplitNewline s).filter (fun line => (jsTrim line).length > 0)).map jsTrim

/-! ## Persistence (`EventService.saveEvent`, lines 8-44) -/

/-- The new `Event` record built by `saveEvent` before plan generation:
the spread of the `CreateEventData` fields plus identifier, clock
readings, and an unset plan field. -/
def mkNewEvent (eventData : CreateEventData) (id : String) (createdAt updatedAt : Nat) : Event :=
  { id := id
    name := eventData.name
    description := eventData.description
    numberOfPeople := eventData.numberOfPeople
    location := eventData.location
    goal := eventData.goal
    activities := eventData.activities
    selectedDates := eventData.selectedDates
    startTime := eventData.startTime
    endTime := eventData.endTime
    isRecurring := eventData.isRecurring
    recurringFrequency := eventData.recurringFrequency
    aiQuestions := eventData.aiQuestions
    aiGeneratedPlan := none
    createdAt := createdAt
    updatedAt := updatedAt }

/-- `EventService.saveEvent`: the identifier and the two `new Date()`
readings are passed as arguments; the plan-generation call's outcome is
`planResult` (an `Except.error` models a thrown generation); the storage
write's outcome is `storageOk` (a failure is caught by the outer catch
and re-thrown as the generic save failure).  A generation failure is
swallowed by the inner catch and the event is stored without a plan. -/
def saveEvent (eventData : CreateEventData) (generateAIPlan : Bool)
    (planResult : Except String String) (id : String) (createdAt updatedAt : Nat)
    (storageOk : Bool) (existingEvents : List Event) : Except String (Event × List Event) :=
  let newEvent := mkNewEvent eventData id createdAt updatedAt
  let newEvent :=
    if generateAIPlan then
      match planResult with
      | Except.ok aiPlan => { newEvent with aiGeneratedPlan := some aiPlan }
      | Except.error _ => newEvent
    else newEvent
  if storageOk then Except.ok (newEvent, newEvent :: existingEvents)
  else Except.error "Failed to save event"

/-! ## Spec-side definitions

The definitions below transcribe the wording of the specification's
claims (not the source); the theorems compare them with the source
embeddings above. -/

/-- Concatenation of a list of strings (used to state the flattening
claims declaratively). -/
def strJoin : List String → String
  | [] => ""
  | s :: rest => s ++ strJoin rest

/-- Claim wording for the summary line's value: the labels joined by
a comma and space, or `"None"` when no label qualifies. -/
def joinOrNone (labels : List String) : String :=
  if labels = [] then "None" else String.intercalate ", " labels

/-- Claim wording for C1: the labels of exactly those fields whose own
line of the user-input block renders the value `"Not specified"`,
in the block's field order. -/
def nsRenderedLabels (d : CreateEventData) : List String :=
  (if titleValue d = "Not specified" then ["Title"] else [])
  ++ (if descriptionValue d = "Not specified" then ["Description"] else [])
  ++ (if attendeesValue d = "Not specified" then ["Attendees"] else [])
  ++ (if locationValue d = "Not specified" then ["Location"] else [])
  ++ (if purposeValue d = "Not specified" then ["Purpose"] else [])
  ++ (if dateValue d = "Not specified" then ["Date"] else [])
  ++ (if startTimeValue d = "Not specified" then ["Start Time"] else [])
  ++ (if endTimeValue d = "Not specified" then ["End Time"] else [])
  ++ (if activitiesValue d = "Not specified" then ["Activities"] else [])
  ++ (if questionsValue d = "Not specified" then ["Questions for AI"] else [])

/-- Whether the Date field passes the builder's presence test
(`selectedDates && selectedDates.length > 0`). -/
def dateSpecified (d : CreateEventData) : Bool :=
  match d.selectedDates with
  | none => false
  | some ds => decide (ds.length > 0)

/-- Whether the Activities field passes the builder's presence test. -/
def activitiesSpecified (d : CreateEventData) : Bool :=
  match d.activities with
  | none => false
  | some l => decide (l.length > 0)

/-- Whether the Questions field passes the builder's presence test. -/
def questionsSpecified (d : CreateEventData) : Bool :=
  match d.aiQuestions with
  | none => false
  | some l => decide (l.length > 0)

/-- Claim wording for C5: a labeled section of the flattened plan —
empty collections contribute nothing, any other collection contributes
its header, its rendered entries, and a trailing blank line. -/
def specSectionGap (header : String) (entries : List String) : String :=
  if entries = [] then "" else header ++ strJoin entries ++ "\n"

/-- Claim wording for C5, final (tips) section: as `specSectionGap` but
with no trailing blank line. -/
def specSectionEnd (header : String) (entries : List String) : String :=
  if entries = [] then "" else header ++ strJoin entries

/-- Whether a JSON value is `null`. -/
def isNullJson : Json → Bool
  | Json.null => true
  | _ => false

/-- Whether an object member is present and is an array. -/
def fieldIsArray (fields : List (String × Json)) (k : String) : Bool :=
  match jsObjGet fields k with
  | some (Json.arr _) => true
  | _ => false

/-- The elements of an object's array member (empty otherwise). -/
def fieldArrayItems (fields : List (String × Json)) (k : String) : List Json :=
  match jsObjGet fields k with
  | some (Json.arr l) => l
  | _ => []

/-- Shape condition under which the flattening of a raw decoded value
cannot throw: all six collection fields are present as arrays, and the
timeline and schedule entries are not `null`. -/
def flattenSafeShape : Json → Bool
  | Json.obj fields =>
      fieldIsArray fields "timeline" && fieldIsArray fields "schedule" &&
      fieldIsArray fields "logistics" && fieldIsArray fields "materials" &&
      fieldIsArray fields "recommendations" && fieldIsArray fields "tips" &&
      (fieldArrayItems fields "timeline").all (fun i => !isNullJson i) &&
      (fieldArrayItems fields "schedule").all (fun i => !isNullJson i)
  | _ => false

/-! ## Concrete inputs used by counterexamples and witnesses -/

/-- A fully-specified draft whose title is the literal string
`"Not specified"`. -/
def c1CounterDraft : CreateEventData :=
  { name := "Not specified"
    description := "Team dinner"
    numberOfPeople := some 4
    location := some "Park"
    goal := some "Fun"
    activities := some [{ id := "a1", name := "Hike", description := none }]
    selectedDates := some ["2026-01-01"]
    startTime := some "9:00 AM"
    endTime := some "5:00 PM"
    isRecurring := some false
    recurringFrequency := none
    aiQuestions := some [{ id := "q1", question := "What food?" }] }

/-- A draft with every field absent. -/
def c1AllAbsentDraft : CreateEventData :=
  { name := ""
    description := ""
    numberOfPeople := none
    location := none
    goal := none
    activities := none
    selectedDates := none
    startTime := none
    endTime := none
    isRecurring := none
    recurringFrequency := none
    aiQuestions := none }

/-- A draft whose present fields are all falsy. -/
def c10FalsyDraft : CreateEventData :=
  { name := ""
    description := ""
    numberOfPeople := some 0
    location := some ""
    goal := some ""
    activities := some []
    selectedDates := some []
    startTime := some ""
    endTime := some ""
    isRecurring := some false
    recurringFrequency := some ""
    aiQuestions := some [] }

/-- A response that parses directly but carries only an overview. -/
def c3OverviewOnlyResponse : String := "\x7b\"overview\":\"x\"\x7d"

/-- The decoded value of `c3OverviewOnlyResponse`. -/
def c3OverviewOnlyPlan : Json := Json.obj [("overview", Json.str "x")]

/-- A schema-complete response used to witness the amended C3 claim. -/
def c3FullResponse : String :=
  "\x7b\"overview\":\"O\",\"timeline\":[\x7b\"time\":\"9:00 AM\",\"activity\":\"A\"\x7d],\"schedule\":[],\"logistics\":[\"L1\"],\"materials\":[],\"recommendations\":[],\"tips\":[\"T1\"]\x7d"

/-- The decoded value of `c3FullResponse`. -/
def c3FullPlan : Json :=
  Json.obj
    [ ("overview", Json.str "O"),
      ("timeline", Json.arr [Json.obj [("time", Json.str "9:00 AM"), ("activity", Json.str "A")]]),
      ("schedule", Json.arr []),
      ("logistics", Json.arr [Json.str "L1"]),
      ("materials", Json.arr []),
      ("recommendations", Json.arr []),
      ("tips", Json.arr [Json.str "T1"]) ]

/-- A valid JSON response whose string value contains a typographic
right single quotation mark (U+2019). -/
def c8DirectResponse : String := "\x7b\"overview\":\"It’s great\"\x7d"

/-- A response using typographic double quotation marks as the string
delimiters, which defeats the direct parse. -/
def c8CurlyDelimResponse : String := "\x7b\"overview\":“It's great”\x7d"

/-- An event used by the enhancement witness. -/
def c7Event : Event :=
  { id := "e1"
    name := "Picnic"
    description := "Annual picnic"
    numberOfPeople := some 12
    location := some "Park"
    goal := none
    activities := none
    selectedDates := none
    startTime := none
    endTime := none
    isRecurring := none
    recurringFrequency := none
    aiQuestions := none
    aiGeneratedPlan := some "## Event Overview\nFun day\n\n"
    createdAt := 0
    updatedAt := 0 }

/-! ## Helper lemmas -/

/-- Appending the empty string on the right is the identity. -/
theorem strAppendEmpty : ∀ s : String, s ++ "" = s
  | ⟨data⟩ => congrArg String.mk (List.append_nil data)

/-- String concatenation is associative. -/
theorem strAppendAssoc : ∀ a b c : String, a ++ b ++ c = a ++ (b ++ c)
  | ⟨x⟩, ⟨y⟩, ⟨z⟩ => congrArg String.mk (List.append_assoc x y z)

/-- A left fold of string appends equals the initial string followed by
the concatenation of the rendered entries. -/
theorem foldlAppend {α : Type} (f : α → String) (l : List α) (init : String) :
    l.foldl (fun acc x => acc ++ f x) init = init ++ strJoin (l.map f) := by
  induction l generalizing init with
  | nil => simp [strJoin, strAppendEmpty]
  | cons x xs ih => simp [List.foldl, strJoin, ih, strAppendAssoc]

/-- One guarded section with a trailing blank line equals appending the
declarative section text. -/
theorem sectionStepGap {α : Type} (l : List α) (f : α → String) (s header : String) :
    (if l.length > 0 then (l.foldl (fun acc x => acc ++ f x) (s ++ header)) ++ "\n" else s) =
      s ++ specSectionGap header (l.map f) := by
  cases l with
  | nil => simp [specSectionGap, strAppendEmpty]
  | cons x xs => simp [specSectionGap, foldlAppend, strJoin, strAppendAssoc]

/-- The final guarded section (no trailing blank line) equals appending
the declarative section text. -/
theorem sectionStepEnd {α : Type} (l : List α) (f : α → String) (s header : String) :
    (if l.length > 0 then l.foldl (fun acc x => acc ++ f x) (s ++ header) else s) =
      s ++ specSectionEnd header (l.map f) := by
  cases l with
  | nil => simp [specSectionEnd, strAppendEmpty]
  | cons x xs => simp [specSectionEnd, foldlAppend, strJoin, strAppendAssoc]

/-- A string has positive length exactly when it is not empty. -/
theorem strLengthPosIff (s : String) : (0 < s.length) ↔ s ≠ "" := by
  cases s with
  | mk l =>
    cases l with
    | nil => simp [String.length]
    | cons c cs => simp [String.length, String.ext_iff]

/-- Keeping the lines whose trimmed form is non-empty and then trimming
them equals one filtering map over the trimmed lines. -/
theorem filterMapTrim (l : List String) :
    (l.filter (fun line => (jsTrim line).length > 0)).map jsTrim =
      l.filterMap (fun line => if jsTrim line = "" then none else some (jsTrim line)) := by
  induction l with
  | nil => rfl
  | cons x xs ih =>
    by_cases h : jsTrim x = ""
    · have hz : ¬ 0 < (jsTrim x).length := by rw [h]; decide
      simp [List.filter_cons, List.filterMap_cons, h, ih, hz]
    · have hp : 0 < (jsTrim x).length := (strLengthPosIff (jsTrim x)).mpr h
      simp [List.filter_cons, List.filterMap_cons, h, ih, hp]

/-- A `forEach` whose item renderer never throws never throws. -/
theorem appendItemsIsSome (render : Json → Option String) (l : List Json)
    (h : ∀ x ∈ l, (render x).isSome) : ∀ acc, (appendItems render l acc).isSome := by
  induction l with
  | nil => intro acc; simp [appendItems]
  | cons x xs ih =>
    intro acc
    obtain ⟨s, hs⟩ := Option.isSome_iff_exists.mp (h x (List.mem_cons_self x xs))
    simp only [appendItems, hs]
    exact ih (fun y hy => h y (List.mem_cons_of_mem x hy)) (acc ++ s)

/-- A guarded section over an array-valued member whose item renderer
never throws never throws. -/
theorem sectionJsIsSome (fields : List (String × Json)) (key header : String)
    (render : Json → Option String) (addGap : Bool) (acc : String)
    (harr : fieldIsArray fields key = true)
    (hitems : ∀ x ∈ fieldArrayItems fields key, (render x).isSome) :
    (sectionJs (Json.obj fields) key header render addGap acc).isSome := by
  unfold fieldIsArray at harr
  unfold fieldArrayItems at hitems
  cases hg : jsObjGet fields key with
  | none => rw [hg] at harr; simp at harr
  | some v =>
    cases v with
    | arr l =>
      rw [hg] at hitems
      by_cases hl : l.length > 0
      · obtain ⟨s, hs⟩ := Option.isSome_iff_exists.mp
          (appendItemsIsSome render l hitems (acc ++ header))
        simp [sectionJs, jsProp, hg, jsLengthGt0, hl, hs]
      · simp [sectionJs, jsProp, hg, jsLengthGt0, hl]
    | null => rw [hg] at harr; simp at harr
    | bool b => rw [hg] at harr; simp at harr
    | num n => rw [hg] at harr; simp at harr
    | str s => rw [hg] at harr; simp at harr
    | obj f => rw [hg] at harr; simp at harr

/-- The flattening of a raw decoded value whose six collection fields
are arrays with non-`null` timeline and schedule entries never throws. -/
theorem flattenSafeTotal (v : Json) (h : flattenSafeShape v = true) : (flattenJs v).isSome := by
  cases v with
  | null => simp [flattenSafeShape] at h
  | bool b => simp [flattenSafeShape] at h
  | num n => simp [flattenSafeShape] at h
  | str s => simp [flattenSafeShape] at h
  | arr l => simp [flattenSafeShape] at h
  | obj fields =>
    simp only [flattenSafeShape, Bool.and_eq_true] at h
    obtain ⟨⟨⟨⟨⟨⟨⟨h1, h2⟩, h3⟩, h4⟩, h5⟩, h6⟩, h7⟩, h8⟩ := h
    have hrt : ∀ x ∈ fieldArrayItems fields "timeline", (renderTimelineItem x).isSome := by
      intro x hx
      have hnn := List.all_eq_true.mp h7 x hx
      cases x <;> simp [isNullJson] at hnn <;> simp [renderTimelineItem, jsProp]
    have hrs : ∀ x ∈ fieldArrayItems fields "schedule", (renderScheduleItem x).isSome := by
      intro x hx
      have hnn := List.all_eq_true.mp h8 x hx
      cases x <;> simp [isNullJson] at hnn <;> simp [renderScheduleItem, jsProp]
    have hrb : ∀ (key : String), ∀ x ∈ fieldArrayItems fields key,
        (renderBulletItem x).isSome := by
      intro key x _
      simp [renderBulletItem]
    obtain ⟨s1, hs1⟩ := Option.isSome_iff_exists.mp
      (sectionJsIsSome fields "timeline" "## Timeline\n" renderTimelineItem true
        ("## Event Overview\n" ++ jsDisplayOpt (jsObjGet fields "overview") ++ "\n\n") h1 hrt)
    obtain ⟨s2, hs2⟩ := Option.isSome_iff_exists.mp
      (sectionJsIsSome fields "schedule" "## Activity Schedule\n" renderScheduleItem true s1
        h2 hrs)
    obtain ⟨s3, hs3⟩ := Option.isSome_iff_exists.mp
      (sectionJsIsSome fields "logistics" "## Logistics\n" renderBulletItem true s2 h3 (hrb _))
    obtain ⟨s4, hs4⟩ := Option.isSome_iff_exists.mp
      (sectionJsIsSome fields "materials" "## Materials Needed\n" renderBulletItem true s3 h4
        (hrb _))
    obtain ⟨s5, hs5⟩ := Option.isSome_iff_exists.mp
      (sectionJsIsSome fields "recommendations" "## Recommendations\n" renderBulletItem true s4
        h5 (hrb _))
    obtain ⟨s6, hs6⟩ := Option.isSome_iff_exists.mp
      (sectionJsIsSome fields "tips" "## Tips for Success\n" renderBulletItem false s5 h6
        (hrb _))
    simp [flattenJs, jsProp, hs1, hs2, hs3, hs4, hs5, hs6]

/-- Two if-branches over the same label agree when the boolean condition
characterises the rendered value being the literal `"Not specified"`. -/
theorem segmentAgree (v : String) (c : Bool) (lab : List String)
    (h1 : c = true → v = "Not specified") (h2 : c = false → v ≠ "Not specified") :
    (if v = "Not specified" then lab else []) = (if c then lab else []) := by
  cases c with
  | true => simp [h1 rfl]
  | false => simp [h2 rfl]

/-! ## Claim C1 -/

/-- C1 counterexample: a draft whose supplied title is the literal string
`"Not specified"`.  Its Title line renders the value `"Not specified"`,
yet the summary line reads `"None"` instead of `"Title"`, so the summary
does not list exactly the labels whose line renders `"Not specified"`. -/
theorem spec_c1_counterexample :
    titleValue c1CounterDraft = "Not specified" ∧
    getNotSpecifiedFields c1CounterDraft = "None" ∧
    joinOrNone (nsRenderedLabels c1CounterDraft) = "Title" ∧
    getNotSpecifiedFields c1CounterDraft ≠ joinOrNone (nsRenderedLabels c1CounterDraft) :=
  ⟨rfl, rfl, rfl, by decide⟩

/-- C1 (amended): for every draft in which no specified field's rendered
value is itself the literal string `"Not specified"`, the summary line
lists exactly the labels of the fields whose line renders
`"Not specified"`, joined by a comma and space, or `"None"` when there
is no such field — the per-line absence checks and the summary's checks
never disagree. -/
theorem spec_c1_amended (d : CreateEventData)
    (h1 : jsStrTruthy d.name = true → titleValue d ≠ "Not specified")
    (h2 : jsStrTruthy d.description = true → descriptionValue d ≠ "Not specified")
    (h3 : jsOptNatTruthy d.numberOfPeople = true → attendeesValue d ≠ "Not specified")
    (h4 : jsOptStrTruthy d.location = true → locationValue d ≠ "Not specified")
    (h5 : jsOptStrTruthy d.goal = true → purposeValue d ≠ "Not specified")
    (h6 : dateSpecified d = true → dateValue d ≠ "Not specified")
    (h7 : jsOptStrTruthy d.startTime = true → startTimeValue d ≠ "Not specified")
    (h8 : jsOptStrTruthy d.endTime = true → endTimeValue d ≠ "Not specified")
    (h9 : activitiesSpecified d = true → activitiesValue d ≠ "Not specified")
    (h10 : questionsSpecified d = true → questionsValue d ≠ "Not specified") :
    getNotSpecifiedFields d = joinOrNone (nsRenderedLabels d) := by
  have e1 : (if titleValue d = "Not specified" then ["Title"] else ([] : List String)) =
      (if !jsStrTruthy d.name then ["Title"] else []) := by
    cases ht : jsStrTruthy d.name with
    | false => simp [titleValue, jsOrStr, ht]
    | true => simp [ht, h1 ht]
  have e2 : (if descriptionValue d = "Not specified" then ["Description"] else ([] : List String)) =
      (if !jsStrTruthy d.description then ["Description"] else []) := by
    cases ht : jsStrTruthy d.description with
    | false => simp [descriptionValue, jsOrStr, ht]
    | true => simp [ht, h2 ht]
  have e3 : (if attendeesValue d = "Not specified" then ["Attendees"] else ([] : List String)) =
      (if !jsOptNatTruthy d.numberOfPeople then ["Attendees"] else []) := by
    cases ht : jsOptNatTruthy d.numberOfPeople with
    | false =>
      cases hm : d.numberOfPeople with
      | none => simp [attendeesValue, hm, jsOptNatTruthy]
      | some n =>
        rw [hm] at ht
        simp only [jsOptNatTruthy] at ht
        simp [attendeesValue, hm, ht]
    | true => simp [ht, h3 ht]
  have e4 : (if locationValue d = "Not specified" then ["Location"] else ([] : List String)) =
      (if !jsOptStrTruthy d.location then ["Location"] else []) := by
    cases ht : jsOptStrTruthy d.location with
    | false =>
      cases hm : d.location with
      | none => simp [locationValue, hm, jsOrOptStr]
      | some v =>
        rw [hm] at ht
        simp only [jsOptStrTruthy] at ht
        simp [locationValue, hm, jsOrOptStr, jsOrStr, ht]
    | true => simp [ht, h4 ht]
  have e5 : (if purposeValue d = "Not specified" then ["Purpose"] else ([] : List String)) =
      (if !jsOptStrTruthy d.goal then ["Purpose"] else []) := by
    cases ht : jsOptStrTruthy d.goal with
    | false =>
      cases hm : d.goal with
      | none => simp [purposeValue, hm, jsOrOptStr]
      | some v =>
        rw [hm] at ht
        simp only [jsOptStrTruthy] at ht
        simp [purposeValue, hm, jsOrOptStr, jsOrStr, ht]
    | true => simp [ht, h5 ht]
  have e6 : (if dateValue d = "Not specified" then ["Date"] else ([] : List String)) =
      (if (match d.selectedDates with
           | none => true
           | some ds => ds.length == 0) then ["Date"] else []) := by
    cases hm : d.selectedDates with
    | none => simp [dateValue, hm]
    | some ds =>
      cases ds with
      | nil => simp [dateValue, hm]
      | cons a l =>
        have hs : dateSpecified d = true := by simp [dateSpecified, hm]
        simp [hm, h6 hs]
  have e7 : (if startTimeValue d = "Not specified" then ["Start Time"] else ([] : List String)) =
      (if !jsOptStrTruthy d.startTime then ["Start Time"] else []) := by
    cases ht : jsOptStrTruthy d.startTime with
    | false =>
      cases hm : d.startTime with
      | none => simp [startTimeValue, hm, jsOrOptStr]
      | some v =>
        rw [hm] at ht
        simp only [jsOptStrTruthy] at ht
        simp [startTimeValue, hm, jsOrOptStr, jsOrStr, ht]
    | true => simp [ht, h7 ht]
  have e8 : (if endTimeValue d = "Not specified" then ["End Time"] else ([] : List String)) =
      (if !jsOptStrTruthy d.endTime then ["End Time"] else []) := by
    cases ht : jsOptStrTruthy d.endTime with
    | false =>
      cases hm : d.endTime with
      | none => simp [endTimeValue, hm, jsOrOptStr]
      | some v =>
        rw [hm] at ht
        simp only [jsOptStrTruthy] at ht
        simp [endTimeValue, hm, jsOrOptStr, jsOrStr, ht]
    | true => simp [ht, h8 ht]
  have e9 : (if activitiesValue d = "Not specified" then ["Activities"] else ([] : List String)) =
      (if (match d.activities with
           | none => true
           | some l => l.length == 0) then ["Activities"] else []) := by
    cases hm : d.activities with
    | none => simp [activitiesValue, hm]
    | some l =>
      cases l with
      | nil => simp [activitiesValue, hm]
      | cons a rest =>
        have hs : activitiesSpecified d = true := by simp [activitiesSpecified, hm]
        simp [hm, h9 hs]
  have e10 : (if questionsValue d = "Not specified" then ["Questions for AI"] else ([] : List String)) =
      (if (match d.aiQuestions with
           | none => true
           | some l => l.length == 0) then ["Questions for AI"] else []) := by
    cases hm : d.aiQuestions with
    | none => simp [questionsValue, hm]
    | some l =>
      cases l with
      | nil => simp [questionsValue, hm]
      | cons a rest =>
        have hs : questionsSpecified d = true := by simp [questionsSpecified, hm]
        simp [hm, h10 hs]
  have hlist : nsRenderedLabels d = notSpecifiedList d := by
    unfold nsRenderedLabels notSpecifiedList
    rw [e1, e2, e3, e4, e5, e6, e7, e8, e9, e10]
  rw [hlist]
  unfold getNotSpecifiedFields joinOrNone
  cases hns : notSpecifiedList d with
  | nil => simp
  | cons a l => simp

/-- C1 witness: the amended claim evaluated at the draft with every
field absent — the summary reads the full ten-label list on both
derivations. -/
theorem spec_c1_amended_witness :
    getNotSpecifiedFields c1AllAbsentDraft = joinOrNone (nsRenderedLabels c1AllAbsentDraft) :=
  spec_c1_amended c1AllAbsentDraft (by decide) (by decide) (by decide) (by decide) (by decide)
    (by decide) (by decide) (by decide) (by decide) (by decide)

/-! ## Claim C4 -/

/-- C4: for every draft the built payload is exactly three blocks —
a fixed system block, the user block `### Event Input` plus the
line-oriented event input, and a fixed output-requirements block —
and the user block's lines appear in the fixed order Title,
Description, Attendees, Location, Purpose, Date, Start Time, End Time,
Recurring, Activities, Questions for AI, then the summary line. -/
theorem spec_c4_payload (d d' : CreateEventData) :
    planRequestMessages d =
      [ { role := "system", content := planSystemContent },
        { role := "user",
          content := String.intercalate "\n" ["### Event Input", buildEventInput d] },
        { role := "user", content := planOutputRequirements } ] ∧
    buildEventInput d = String.intercalate "\n"
      [ titleLine d, descriptionLine d, attendeesLine d, locationLine d,
        purposeLine d, dateLine d, startTimeLine d, endTimeLine d,
        recurringLine d, activitiesLine d, questionsLine d, summaryLine d ] ∧
    (planRequestMessages d).length = 3 ∧
    (planRequestMessages d).map (fun m => m.role) = ["system", "user", "user"] ∧
    (planRequestMessages d).head? = (planRequestMessages d').head? ∧
    (planRequestMessages d).getLast? = (planRequestMessages d').getLast? := by
  refine ⟨rfl, rfl, rfl, ?_, ?_, ?_⟩ <;> simp [planRequestMessages]

/-! ## Claim C5 -/

/-- C5: flattening emits the header and overview first, then, for each
non-empty collection in the fixed order timeline, schedule, logistics,
materials, recommendations, tips, a labeled section with entries
rendered as timeline bullets, schedule bullets, or plain bullets; an
empty collection contributes no section and no header, so a plan with
only overview and tips populated contains only those two parts. -/
theorem spec_c5_flattening (p : EventPlanResponse) :
    generateEventPlanString p =
      "## Event Overview\n" ++ p.overview ++ "\n\n" ++
      specSectionGap "## Timeline\n"
        (p.timeline.map (fun i => "- **" ++ i.time ++ ":** " ++ i.activity ++ "\n")) ++
      specSectionGap "## Activity Schedule\n"
        (p.schedule.map (fun i => "- **" ++ i.activity ++ "** - " ++ i.details ++
          " (Location: " ++ i.location ++ ")\n")) ++
      specSectionGap "## Logistics\n" (p.logistics.map (fun i => "- " ++ i ++ "\n")) ++
      specSectionGap "## Materials Needed\n" (p.materials.map (fun i => "- " ++ i ++ "\n")) ++
      specSectionGap "## Recommendations\n" (p.recommendations.map (fun i => "- " ++ i ++ "\n")) ++
      specSectionEnd "## Tips for Success\n" (p.tips.map (fun i => "- " ++ i ++ "\n")) ∧
    (p.timeline = [] → p.schedule = [] → p.logistics = [] → p.materials = [] →
     p.recommendations = [] →
       generateEventPlanString p =
         "## Event Overview\n" ++ p.overview ++ "\n\n" ++
         specSectionEnd "## Tips for Success\n" (p.tips.map (fun i => "- " ++ i ++ "\n"))) := by
  have main : generateEventPlanString p =
      "## Event Overview\n" ++ p.overview ++ "\n\n" ++
      specSectionGap "## Timeline\n"
        (p.timeline.map (fun i => "- **" ++ i.time ++ ":** " ++ i.activity ++ "\n")) ++
      specSectionGap "## Activity Schedule\n"
        (p.schedule.map (fun i => "- **" ++ i.activity ++ "** - " ++ i.details ++
          " (Location: " ++ i.location ++ ")\n")) ++
      specSectionGap "## Logistics\n" (p.logistics.map (fun i => "- " ++ i ++ "\n")) ++
      specSectionGap "## Materials Needed\n" (p.materials.map (fun i => "- " ++ i ++ "\n")) ++
      specSectionGap "## Recommendations\n" (p.recommendations.map (fun i => "- " ++ i ++ "\n")) ++
      specSectionEnd "## Tips for Success\n" (p.tips.map (fun i => "- " ++ i ++ "\n")) := by
    simp only [generateEventPlanString]
    rw [sectionStepEnd, sectionStepGap, sectionStepGap, sectionStepGap, sectionStepGap,
        sectionStepGap]
  refine ⟨main, ?_⟩
  intro ht hs hl hm hr
  rw [main, ht, hs, hl, hm, hr]
  simp [specSectionGap, strAppendEmpty]

/-- C5 witness: a plan with only overview and tips populated flattens to
the overview part followed directly by the tips section. -/
theorem spec_c5_flattening_witness :
    generateEventPlanString
        { overview := "O", timeline := [], schedule := [], logistics := [],
          materials := [], recommendations := [], tips := ["T1"] } =
      "## Event Overview\n" ++ "O" ++ "\n\n" ++
      specSectionEnd "## Tips for Success\n"
        ((["T1"] : List String).map (fun i => "- " ++ i ++ "\n")) :=
  (spec_c5_flattening
      { overview := "O", timeline := [], schedule := [], logistics := [],
        materials := [], recommendations := [], tips := ["T1"] }).2
    rfl rfl rfl rfl rfl

/-! ## Claim C9 -/

/-- C9: when plan generation throws, `saveEvent` still persists the
event — prepended to the stored list, plan field unset — and returns
it; the persisted fields besides the plan are the same as when
generation succeeds, and no generation outcome can make the save fail. -/
theorem spec_c9_save_independent (eventData : CreateEventData) (msg plan id : String)
    (createdAt updatedAt : Nat) (stored : List Event) :
    saveEvent eventData true (Except.error msg) id createdAt updatedAt true stored =
      Except.ok (mkNewEvent eventData id createdAt updatedAt,
                 mkNewEvent eventData id createdAt updatedAt :: stored) ∧
    (mkNewEvent eventData id createdAt updatedAt).aiGeneratedPlan = none ∧
    saveEvent eventData true (Except.ok plan) id createdAt updatedAt true stored =
      Except.ok
        ({ mkNewEvent eventData id createdAt updatedAt with aiGeneratedPlan := some plan },
         { mkNewEvent eventData id createdAt updatedAt with aiGeneratedPlan := some plan }
           :: stored) ∧
    (∀ r : Except String String, ∃ ev : Event,
        saveEvent eventData true r id createdAt updatedAt true stored =
          Except.ok (ev, ev :: stored)) := by
  refine ⟨rfl, rfl, rfl, ?_⟩
  intro r
  cases r with
  | ok p => exact ⟨_, rfl⟩
  | error e => exact ⟨_, rfl⟩

/-! ## Claim C10 -/

/-- C10: a present-but-falsy field — attendee count `0` or an
empty-string title, description, location, purpose, start time or end
time — is treated exactly as an absent field: its line renders
`"Not specified"`, its label joins the summary list, and for the
optional fields the whole built block equals the block built with the
field absent. -/
theorem spec_c10_falsy_as_absent (d : CreateEventData) :
    (titleValue { d with name := "" } = "Not specified" ∧
       "Title" ∈ notSpecifiedList { d with name := "" }) ∧
    (descriptionValue { d with description := "" } = "Not specified" ∧
       "Description" ∈ notSpecifiedList { d with description := "" }) ∧
    (attendeesValue { d with numberOfPeople := some 0 } = "Not specified" ∧
       "Attendees" ∈ notSpecifiedList { d with numberOfPeople := some 0 } ∧
       buildEventInput { d with numberOfPeople := some 0 } =
         buildEventInput { d with numberOfPeople := none } ∧
       getNotSpecifiedFields { d with numberOfPeople := some 0 } =
         getNotSpecifiedFields { d with numberOfPeople := none }) ∧
    (locationValue { d with location := some "" } = "Not specified" ∧
       "Location" ∈ notSpecifiedList { d with location := some "" } ∧
       buildEventInput { d with location := some "" } =
         buildEventInput { d with location := none } ∧
       getNotSpecifiedFields { d with location := some "" } =
         getNotSpecifiedFields { d with location := none }) ∧
    (purposeValue { d with goal := some "" } = "Not specified" ∧
       "Purpose" ∈ notSpecifiedList { d with goal := some "" } ∧
       buildEventInput { d with goal := some "" } =
         buildEventInput { d with goal := none } ∧
       getNotSpecifiedFields { d with goal := some "" } =
         getNotSpecifiedFields { d with goal := none }) ∧
    (startTimeValue { d with startTime := some "" } = "Not specified" ∧
       "Start Time" ∈ notSpecifiedList { d with startTime := some "" } ∧
       buildEventInput { d with startTime := some "" } =
         buildEventInput { d with startTime := none } ∧
       getNotSpecifiedFields { d with startTime := some "" } =
         getNotSpecifiedFields { d with startTime := none }) ∧
    (endTimeValue { d with endTime := some "" } = "Not specified" ∧
       "End Time" ∈ notSpecifiedList { d with endTime := some "" } ∧
       buildEventInput { d with endTime := some "" } =
         buildEventInput { d with endTime := none } ∧
       getNotSpecifiedFields { d with endTime := some "" } =
         getNotSpecifiedFields { d with endTime := none }) := by
  refine ⟨⟨rfl, ?_⟩, ⟨rfl, ?_⟩, ⟨rfl, ?_, rfl, rfl⟩, ⟨rfl, ?_, rfl, rfl⟩,
          ⟨rfl, ?_, rfl, rfl⟩, ⟨rfl, ?_, rfl, rfl⟩, ⟨rfl, ?_, rfl, rfl⟩⟩ <;>
    simp +decide [notSpecifiedList, jsStrTruthy, jsOptStrTruthy, jsOptNatTruthy]

/-! ## Claim C2 -/

/-- C2: on every non-empty response text on which both the direct and
the post-cleanup JSON parse fail, the normalizer returns exactly the
fixed fallback plan — failure-notice overview, four empty lists, one
failure-notice logistics entry, one retry-suggestion recommendation —
and the cascade returns it without letting any decode error escape. -/
theorem spec_c2_fallback (text : String) (hne : text ≠ "")
    (h1 : jsonParse text = none) (h2 : jsonParse (cleanResponse text) = none) :
    normalizeResponse text = fallbackPlanJson ∧
    generateEventPlanResult (some text) = Except.ok fallbackPlanJson ∧
    fallbackPlanJson = Json.obj
      [ ("overview", Json.str "Unable to parse AI response. Please regenerate the plan."),
        ("timeline", Json.arr []),
        ("schedule", Json.arr []),
        ("logistics", Json.arr [Json.str "Error occurred during plan generation"]),
        ("materials", Json.arr []),
        ("recommendations", Json.arr [Json.str "Please try regenerating the AI plan"]),
        ("tips", Json.arr []) ] := by
  have hn : normalizeResponse text = fallbackPlanJson := by
    unfold normalizeResponse
    rw [h1, h2]
  refine ⟨hn, ?_, rfl⟩
  unfold generateEventPlanResult
  simp [hne, hn]

/-- C2 witness: the text `not json at all` fails both parses and
normalizes to the fixed fallback object. -/
theorem spec_c2_fallback_witness :
    normalizeResponse "not json at all" = fallbackPlanJson ∧
    generateEventPlanResult (some "not json at all") = Except.ok fallbackPlanJson ∧
    fallbackPlanJson = Json.obj
      [ ("overview", Json.str "Unable to parse AI response. Please regenerate the plan."),
        ("timeline", Json.arr []),
        ("schedule", Json.arr []),
        ("logistics", Json.arr [Json.str "Error occurred during plan generation"]),
        ("materials", Json.arr []),
        ("recommendations", Json.arr [Json.str "Please try regenerating the AI plan"]),
        ("tips", Json.arr []) ] :=
  spec_c2_fallback "not json at all" (by decide) rfl rfl

/-! ## Claim C3 -/

/-- C3 counterexample: the response text consisting of a JSON object
with only an `overview` member decodes directly; the normalizer returns
it as-is, but the flattening crashes on it (a thrown `TypeError` from
`undefined.length`, modelled by `none`) instead of treating the absent
array fields as empty. -/
theorem spec_c3_counterexample :
    jsonParse c3OverviewOnlyResponse = some c3OverviewOnlyPlan ∧
    normalizeResponse c3OverviewOnlyResponse = c3OverviewOnlyPlan ∧
    flattenJs c3OverviewOnlyPlan = none :=
  ⟨rfl, rfl, rfl⟩

/-- C3 (amended): a directly-decoding response is returned as-is with no
field rewriting, but the downstream flattening is only crash-free on
decoded objects whose six collection fields are present as arrays (with
non-`null` timeline and schedule entries); an absent array field makes
the flattening throw. -/
theorem spec_c3_amended :
    (∀ text v, jsonParse text = some v → normalizeResponse text = v) ∧
    (∀ v, flattenSafeShape v = true → (flattenJs v).isSome) := by
  constructor
  · intro text v h
    unfold normalizeResponse
    rw [h]
  · exact flattenSafeTotal

set_option maxRecDepth 8000 in
/-- C3 witness: a schema-complete response decodes directly, is returned
as-is, and flattens without a crash. -/
theorem spec_c3_amended_witness :
    normalizeResponse c3FullResponse = c3FullPlan ∧ (flattenJs c3FullPlan).isSome :=
  ⟨spec_c3_amended.1 c3FullResponse c3FullPlan rfl, spec_c3_amended.2 c3FullPlan rfl⟩

/-! ## Claim C6 -/

/-- C6: the activity-suggestion operation maps a successful completion
text to its non-empty trimmed lines in order, and maps a thrown call or
a missing text to the empty list without throwing. -/
theorem spec_c6_suggestions :
    (∀ s : String, generateActivitySuggestions (Except.ok (some s)) =
      (jsSplitNewline s).filterMap
        (fun line => if jsTrim line = "" then none else some (jsTrim line))) ∧
    (∀ e : String, generateActivitySuggestions (Except.error e) = []) ∧
    generateActivitySuggestions (Except.ok none) = [] := by
  refine ⟨?_, fun e => rfl, rfl⟩
  intro s
  by_cases hs : s = ""
  · subst hs; rfl
  · simp only [generateActivitySuggestions, hs, if_false]
    exact filterMapTrim (jsSplitNewline s)

/-! ## Claim C7 -/

/-- C7: the enhancement operation sends a fixed system block plus one
user block embedding the event's flattened plan string and the user's
request; it returns the completion text unmodified; and it throws —
never returning a fallback object — exactly when the completion returns
no text. -/
theorem spec_c7_enhancement (event : Event) (userRequest : String) :
    enhanceRequestMessages event userRequest =
      [ { role := "system",
          content := "You are an expert event planner helping to enhance and improve existing event plans based on user feedback and requests." },
        { role := "user", content := enhancePrompt event userRequest } ] ∧
    (∀ plan, event.aiGeneratedPlan = some plan → plan ≠ "" →
      enhancePrompt event userRequest =
        "Here is an existing event plan:\n\nEvent: " ++ event.name ++ "\nCurrent Plan: " ++
        plan ++ "\n\nUser Request: " ++ userRequest ++
        "\n\nPlease provide an enhanced or modified version of this event plan based on the user's request. Keep the good parts of the existing plan and improve upon them.") ∧
    (∀ s, s ≠ "" → enhanceExistingPlan (some s) = Except.ok s) ∧
    enhanceExistingPlan none =
      Except.error "Failed to enhance event plan: Failed to enhance event plan" ∧
    enhanceExistingPlan (some "") =
      Except.error "Failed to enhance event plan: Failed to enhance event plan" ∧
    (∀ content, (enhanceExistingPlan content).isOk = jsOptStrTruthy content) := by
  refine ⟨rfl, ?_, ?_, rfl, rfl, ?_⟩
  · intro plan hp hne
    have hE : plan.isEmpty = false := by
      cases hEE : plan.isEmpty with
      | false => rfl
      | true => exact absurd ((String.isEmpty_iff plan).mp hEE) hne
    unfold enhancePrompt jsOrOptStr jsOrStr
    rw [hp]
    simp [jsStrTruthy, hE]
  · intro s hs
    unfold enhanceExistingPlan
    simp [hs]
  · intro content
    cases content with
    | none => rfl
    | some s =>
      by_cases hs : s = ""
      · subst hs; rfl
      · have hE : s.isEmpty = false := by
          cases hEE : s.isEmpty with
          | false => rfl
          | true => exact absurd ((String.isEmpty_iff s).mp hEE) hs
        unfold enhanceExistingPlan jsOptStrTruthy jsStrTruthy
        simp [hs, hE, Except.isOk, Except.toBool]

/-- C7 witness: the enhancement prompt built for a concrete event with a
stored plan, and the raw return of a concrete non-empty completion. -/
theorem spec_c7_enhancement_witness :
    enhancePrompt c7Event "Add more games" =
      "Here is an existing event plan:\n\nEvent: " ++ c7Event.name ++ "\nCurrent Plan: " ++
      "## Event Overview\nFun day\n\n" ++ "\n\nUser Request: " ++ "Add more games" ++
      "\n\nPlease provide an enhanced or modified version of this event plan based on the user's request. Keep the good parts of the existing plan and improve upon them." ∧
    enhanceExistingPlan (some "Enhanced plan text") = Except.ok "Enhanced plan text" :=
  ⟨(spec_c7_enhancement c7Event "Add more games").2.1 "## Event Overview\nFun day\n\n" rfl
      (by decide),
   (spec_c7_enhancement c7Event "Add more games").2.2.1 "Enhanced plan text" (by decide)⟩

/-! ## Claim C8 -/

/-- C8 counterexample: the response of a JSON object whose `overview`
value contains a typographic right single quotation mark is valid JSON,
so the direct parse succeeds and the normalizer returns it with the
typographic quotation mark retained, not converted to the ASCII
apostrophe (the conversion only exists in the cleanup path). -/
theorem spec_c8_counterexample :
    jsonParse c8DirectResponse = some (Json.obj [("overview", Json.str "It’s great")]) ∧
    normalizeResponse c8DirectResponse = Json.obj [("overview", Json.str "It’s great")] ∧
    "It’s great" ≠ "It's great" ∧
    String.mk (fixSmartSingles "It’s great".data) = "It's great" :=
  ⟨rfl, rfl, by decide, rfl⟩

/-- C8 (amended): the typographic-quotation-mark conversion applies only
on the cleanup path, i.e. when the direct parse fails; a response using
typographic double quotation marks as string delimiters fails the direct
parse and normalizes, after conversion, to the plan with ASCII quotes,
while a response that parses directly keeps its characters as-is. -/
theorem spec_c8_amended :
    (∀ text, jsonParse text = none →
      normalizeResponse text =
        (match jsonParse (cleanResponse text) with
         | some v => v
         | none => fallbackPlanJson)) ∧
    jsonParse c8CurlyDelimResponse = none ∧
    jsonParse (cleanResponse c8CurlyDelimResponse) =
      some (Json.obj [("overview", Json.str "It's great")]) ∧
    normalizeResponse c8CurlyDelimResponse = Json.obj [("overview", Json.str "It's great")] := by
  refine ⟨?_, rfl, rfl, rfl⟩
  intro text h
  unfold normalizeResponse
  rw [h]

/-- C8 witness: the cleanup-path equation evaluated at the
typographic-delimiter response. -/
theorem spec_c8_amended_witness :
    normalizeResponse c8CurlyDelimResponse =
      (match jsonParse (cleanResponse c8CurlyDelimResponse) with
       | some v => v
       | none => fallbackPlanJson) :=
  spec_c8_amended.1 c8CurlyDelimResponse rfl

end AIEventPlanner
